import Mathlib

/-!
Shallow embedding of the two AWS Lambda entry points of the
Energy-Consumption-Metering repository:

* `src/anomaly_alert_lambda.py` — scans the latest billing CSV snapshot for
  consumption anomalies and publishes an SNS notification;
* `src/billing_api_lambda.py` — returns all billing records of a requested
  calendar month as JSON.

External collaborators (S3 listing, S3 object fetch, SNS publish) are passed
in as explicit values; pandas operations are translated cell-by-cell and
row-by-row.  Floating point numeric cells are modelled by `ℚ`.
-/

/-- A snapshot reference as returned by `s3.list_objects_v2`:
one element of `response['Contents']`, keeping the fields the code reads. -/
structure SnapRef where
  key : String
  last_modified : Nat
deriving DecidableEq, Repr

/-- Python `max(contents, key=lambda x: x['LastModified'])` over `best :: rest`:
the running maximum is replaced only on a strictly greater key, so the first
maximal element wins.  (CPython `max` updates only when `key(item) > key(cur)`.) -/
def pyMaxByLastModified : SnapRef → List SnapRef → SnapRef
  | best, [] => best
  | best, x :: xs =>
    if best.last_modified < x.last_modified then pyMaxByLastModified x xs
    else pyMaxByLastModified best xs

/-- Lines 22-28 of `anomaly_alert_lambda.py` (and 25-33 of
`billing_api_lambda.py`): `'Contents' not in response` is modelled by the empty
list (S3 omits the key when no object matches the prefix), otherwise the
reference with the latest `LastModified` is selected. -/
def selectSnapshot : List SnapRef → Option SnapRef
  | [] => none
  | x :: xs => some (pyMaxByLastModified x xs)

/-- One CSV cell after `pd.read_csv`: a value that parses as a number, a string
that does not parse as a number, or an empty cell (`NaN`). -/
inductive Cell where
  | num (q : ℚ)
  | str (s : String)
  | nan
deriving DecidableEq, Repr

/-- `pd.to_numeric(col, errors='coerce').fillna(0)` on one cell
(anomaly path, line 53): non-numeric strings become `NaN`, then every `NaN`
becomes 0. -/
def toNumericFill0 : Cell → ℚ
  | .num q => q
  | .str _ => 0
  | .nan => 0

/-- `df[billing_cols].fillna(0)` on one cell (billing path, line 67): only
empty (`NaN`) cells become 0; a non-numeric string is left unchanged. -/
def fillna0 : Cell → Cell
  | .nan => .num 0
  | c => c

/-- A calendar date, as produced by `pd.to_datetime(..., dayfirst=True)`. -/
structure SimpleDate where
  day : Nat
  month : Nat
  year : Nat
deriving DecidableEq, Repr

/-- Zero-padded two-digit rendering, as in strftime `%d` / `%m`. -/
def pad2 (n : Nat) : String :=
  if n < 10 then "0" ++ toString n else toString n

/-- Zero-padded four-digit rendering, as in strftime `%Y`. -/
def pad4 (n : Nat) : String :=
  if n < 10 then "000" ++ toString n
  else if n < 100 then "00" ++ toString n
  else if n < 1000 then "0" ++ toString n
  else toString n

/-- `date.strftime('%Y-%m')` — the key the billing path compares against the
`month` query parameter. -/
def formatYM (d : SimpleDate) : String :=
  pad4 d.year ++ "-" ++ pad2 d.month

/-- `date.strftime('%d-%m-%Y')` — day-month-year, used in alert messages and in
the serialized monthly records. -/
def formatDMY (d : SimpleDate) : String :=
  pad2 d.day ++ "-" ++ pad2 d.month ++ "-" ++ pad4 d.year

/-- One raw CSV row after `pd.read_csv` and `pd.to_datetime(errors='coerce')`:
`dateCell = none` models `NaT` (the date failed to parse, row will be dropped
by `dropna(subset=['Date'])`).  Each numeric column of the fixed known set has
one cell; when the whole column is absent from the schema the corresponding
presence flag of `RawCSV` is false and the cell content is irrelevant. -/
structure RawRow where
  dateCell : Option SimpleDate
  sub1 : Cell
  sub2 : Cell
  sub3 : Cell
  dailySum : Cell
  peak : Cell
  offpeak : Cell
  total : Cell
  avgSub : Cell
deriving DecidableEq, Repr

/-- The parsed CSV: per-column schema presence plus the rows. -/
structure RawCSV where
  hasDateCol : Bool
  hasSub1 : Bool
  hasSub2 : Bool
  hasSub3 : Bool
  hasDailySum : Bool
  hasPeak : Bool
  hasOffpeak : Bool
  hasTotal : Bool
  hasAvgSub : Bool
  rows : List RawRow
deriving DecidableEq, Repr

/-- Anomaly-path coercion of one column value (lines 48-53 of
`anomaly_alert_lambda.py`): a column missing from the schema is synthesized as
constant 0, otherwise `pd.to_numeric(errors='coerce').fillna(0)` is applied. -/
def coerceCol (present : Bool) (c : Cell) : ℚ :=
  if present then toNumericFill0 c else 0

/-- A fully normalized record on the anomaly path: valid date, all numeric
fields present. -/
structure MeterRecord where
  date : SimpleDate
  sub1 : ℚ
  sub2 : ℚ
  sub3 : ℚ
  dailySum : ℚ
  peak : ℚ
  offpeak : ℚ
  total : ℚ
deriving DecidableEq, Repr

/-- Lines 37-53 of `anomaly_alert_lambda.py`: `ValueError` if the `Date` column
is absent, otherwise rows whose date failed to parse are dropped and every
numeric column of the fixed set is coerced. -/
def normalizeAnomaly (csv : RawCSV) : Except String (List MeterRecord) :=
  if !csv.hasDateCol then
    .error "CSV file is missing the required Date column."
  else
    .ok (csv.rows.filterMap fun r =>
      match r.dateCell with
      | none => none
      | some d => some
          { date := d
            sub1 := coerceCol csv.hasSub1 r.sub1
            sub2 := coerceCol csv.hasSub2 r.sub2
            sub3 := coerceCol csv.hasSub3 r.sub3
            dailySum := coerceCol csv.hasDailySum r.dailySum
            peak := coerceCol csv.hasPeak r.peak
            offpeak := coerceCol csv.hasOffpeak r.offpeak
            total := coerceCol csv.hasTotal r.total })

/-- Line 59: `df['total_daily_sum'].mean() if not df['total_daily_sum'].empty
else 0`. -/
def avgDaily (ds : List MeterRecord) : ℚ :=
  if ds.isEmpty then 0 else (ds.map (·.dailySum)).sum / ds.length

/-- The three anomaly rules produce these alerts (message text abstracted to
the data it carries; triggering conditions and ordering are contractual,
byte-exact text is not). -/
inductive Alert where
  | highConsumption (date : SimpleDate) (dailySum avg : ℚ)
  | zeroConsumption (date : SimpleDate)
  | subMeterSpike (date : SimpleDate) (col : Fin 3) (value : ℚ)
deriving DecidableEq, Repr

/-- Rule 1 (line 66): `avg_daily > 0 and row['total_daily_sum'] > 1.5 * avg_daily`. -/
def rule1Fires (avg : ℚ) (r : MeterRecord) : Bool :=
  (0 < avg) && (3 / 2 * avg < r.dailySum)

/-- Rule 2 (line 71): `row['total_daily_sum'] == 0`. -/
def rule2Fires (r : MeterRecord) : Bool :=
  r.dailySum == 0

/-- Rule 3 threshold test (line 77): `row[col] > 10000`. -/
def rule3Fires (v : ℚ) : Bool :=
  10000 < v

/-- Lines 61-78: the alerts one record appends, in the fixed rule order
(high consumption, zero consumption, spike for each sub-meter column in order). -/
def rowAlerts (avg : ℚ) (r : MeterRecord) : List Alert :=
  (if rule1Fires avg r then [.highConsumption r.date r.dailySum avg] else []) ++
  (if rule2Fires r then [.zeroConsumption r.date] else []) ++
  (if rule3Fires r.sub1 then [.subMeterSpike r.date 0 r.sub1] else []) ++
  (if rule3Fires r.sub2 then [.subMeterSpike r.date 1 r.sub2] else []) ++
  (if rule3Fires r.sub3 then [.subMeterSpike r.date 2 r.sub3] else [])

/-- Lines 56-78: all alerts of one invocation, in dataset row order. -/
def allAlerts (ds : List MeterRecord) : List Alert :=
  ds.flatMap (rowAlerts (avgDaily ds))

/-- Response bodies produced by the two handlers, keeping their shape:
`anomalySuccess` is the JSON object of lines 94-99 of the anomaly lambda,
`rawBody` is a bare (non-JSON) string body, `errorBody` is
`json.dumps({"error": msg})`, `errorBodyDetails` is
`json.dumps({"error": msg, "details": details})`, and `records` is
`monthly_df.to_json(orient='records')`: an ordered list of rows, each an
ordered list of column-name/value pairs. -/
inductive Body where
  | anomalySuccess (fileProcessed : String) (recordsAnalyzed alertsFound : Nat)
  | rawBody (s : String)
  | errorBody (error : String)
  | errorBodyDetails (error details : String)
  | records (rows : List (List (String × Cell)))
deriving DecidableEq, Repr

/-- The value returned by either lambda: `{"statusCode": ..., "body": ...}`. -/
structure HttpResponse where
  statusCode : Nat
  body : Body
deriving DecidableEq, Repr

namespace AnomalyLambda

/-- `src/anomaly_alert_lambda.py`, `lambda_handler`.  The S3 listing, the
object fetch and the SNS publish outcome are explicit inputs: `listing` is
`response['Contents']` (`[]` when the key is absent), `fetch` maps a key to the
parsed CSV or to an exception message, and `publish` is the outcome
`sns.publish` would have (`.error e` models a raised exception with text `e`).
The second component of the result records whether `sns.publish` was called.
Any exception is caught at line 102 and converted to
`{"statusCode": 500, "body": {"error": str(e)}}`. -/
def lambda_handler (listing : List SnapRef) (fetch : String → Except String RawCSV)
    (publish : Except String Unit) : HttpResponse × Bool :=
  match selectSnapshot listing with
  | none => (⟨404, .rawBody "No billing files found in S3"⟩, false)
  | some ref =>
    match fetch ref.key with
    | .error e => (⟨500, .errorBody e⟩, false)
    | .ok csv =>
      match normalizeAnomaly csv with
      | .error e => (⟨500, .errorBody e⟩, false)
      | .ok ds =>
        let alerts := allAlerts ds
        if alerts.isEmpty then
          (⟨200, .anomalySuccess ref.key ds.length alerts.length⟩, false)
        else
          match publish with
          | .ok _ => (⟨200, .anomalySuccess ref.key ds.length alerts.length⟩, true)
          | .error e => (⟨500, .errorBody e⟩, true)

end AnomalyLambda

namespace BillingLambda

/-- `if not month:` — true when the parameter is absent or the empty string. -/
def monthMissing : Option String → Bool
  | none => true
  | some s => s.isEmpty

/-- Billing-path value of one column after the fill of lines 63-67: a column
absent from the schema is synthesized as constant 0, a present column gets
`fillna(0)` per cell (non-numeric strings survive unchanged). -/
def queryCell (present : Bool) (c : Cell) : Cell :=
  if present then fillna0 c else .num 0

/-- Lines 79-80: `monthly_df[['Date'] + billing_cols]` with the date
reformatted to `%d-%m-%Y`; the column order is the order of `billing_cols`
(lines 57-61). -/
def serializeRow (csv : RawCSV) (d : SimpleDate) (r : RawRow) : List (String × Cell) :=
  [("Date", .str (formatDMY d)),
   ("total_Sub_metering_1", queryCell csv.hasSub1 r.sub1),
   ("total_Sub_metering_2", queryCell csv.hasSub2 r.sub2),
   ("total_Sub_metering_3", queryCell csv.hasSub3 r.sub3),
   ("avg_submetering_value", queryCell csv.hasAvgSub r.avgSub),
   ("total_daily_sum", queryCell csv.hasDailySum r.dailySum),
   ("peak_charge", queryCell csv.hasPeak r.peak),
   ("offpeak_charge", queryCell csv.hasOffpeak r.offpeak),
   ("total_charge", queryCell csv.hasTotal r.total)]

/-- Rows surviving `dropna(subset=['Date'])`, paired with their parsed date. -/
def validRows (csv : RawCSV) : List (SimpleDate × RawRow) :=
  csv.rows.filterMap fun r => r.dateCell.map fun d => (d, r)

/-- `src/billing_api_lambda.py`, `lambda_handler`.  `month` is
`(event.get('queryStringParameters') or {}).get('month')`; the S3 collaborators
are explicit as in the anomaly handler.  A fetch exception propagates to the
catch-all of line 88 and becomes
`{"statusCode": 500, "body": {"error": "Internal server error", "details": e}}`. -/
def lambda_handler (month : Option String) (listing : List SnapRef)
    (fetch : String → Except String RawCSV) : HttpResponse :=
  if monthMissing month then
    ⟨400, .errorBody "Month parameter is required, e.g., ?month=2025-10"⟩
  else
    let m := month.getD ""
    match selectSnapshot listing with
    | none => ⟨404, .errorBody "No billing files found in S3"⟩
    | some ref =>
      match fetch ref.key with
      | .error e => ⟨500, .errorBodyDetails "Internal server error" e⟩
      | .ok csv =>
        if !csv.hasDateCol then
          ⟨500, .errorBody "CSV missing Date column"⟩
        else if (validRows csv).isEmpty then
          ⟨500, .errorBody "No valid dates found in CSV"⟩
        else
          let monthly := (validRows csv).filter fun p => formatYM p.1 == m
          if monthly.isEmpty then
            ⟨404, .errorBody ("No billing data found for month " ++ m)⟩
          else
            ⟨200, .records (monthly.map fun p => serializeRow csv p.1 p.2)⟩

end BillingLambda

/-! ## Helper lemmas -/

theorem pyMax_le (b : SnapRef) (l : List SnapRef) :
    ∀ x ∈ b :: l, x.last_modified ≤ (pyMaxByLastModified b l).last_modified := by
  induction l generalizing b with
  | nil =>
    intro x hx
    rw [List.mem_singleton] at hx
    subst hx
    exact le_refl _
  | cons y ys ih =>
    intro x hx
    rw [pyMaxByLastModified]
    by_cases h : b.last_modified < y.last_modified
    · rw [if_pos h]
      rcases List.mem_cons.mp hx with hxb | hx'
      · subst hxb
        exact le_of_lt (lt_of_lt_of_le h (ih y y (List.mem_cons_self y ys)))
      · exact ih y x hx'
    · rw [if_neg h]
      rcases List.mem_cons.mp hx with hxb | hx'
      · subst hxb
        exact ih x x (List.mem_cons_self x ys)
      · rcases List.mem_cons.mp hx' with hxy | hx''
        · subst hxy
          exact le_trans (le_of_not_lt h) (ih b b (List.mem_cons_self b ys))
        · exact ih b x (List.mem_cons_of_mem b hx'')

theorem pyMax_mem (b : SnapRef) (l : List SnapRef) :
    pyMaxByLastModified b l ∈ b :: l := by
  induction l generalizing b with
  | nil => simp [pyMaxByLastModified]
  | cons y ys ih =>
    rw [pyMaxByLastModified]
    by_cases h : b.last_modified < y.last_modified
    · rw [if_pos h]
      exact List.mem_cons_of_mem b (ih y)
    · rw [if_neg h]
      rcases List.mem_cons.mp (ih b) with h1 | h1
      · rw [h1]
        exact List.mem_cons_self b _
      · exact List.mem_cons_of_mem b (List.mem_cons_of_mem y h1)

theorem pyMax_split (b : SnapRef) (l : List SnapRef) :
    ∃ l₁ l₂, b :: l = l₁ ++ pyMaxByLastModified b l :: l₂ ∧
      (∀ x ∈ l₁, x.last_modified < (pyMaxByLastModified b l).last_modified) ∧
      (∀ x ∈ l₂, x.last_modified ≤ (pyMaxByLastModified b l).last_modified) := by
  induction l generalizing b with
  | nil => exact ⟨[], [], by simp [pyMaxByLastModified], by simp, by simp⟩
  | cons y ys ih =>
    rw [pyMaxByLastModified]
    by_cases h : b.last_modified < y.last_modified
    · rw [if_pos h]
      obtain ⟨l₁, l₂, heq, hlt, hle⟩ := ih y
      refine ⟨b :: l₁, l₂, ?_, ?_, hle⟩
      · rw [List.cons_append, ← heq]
      · intro x hx
        rcases List.mem_cons.mp hx with hxb | hx'
        · subst hxb
          exact lt_of_lt_of_le h (pyMax_le y ys y (List.mem_cons_self y ys))
        · exact hlt x hx'
    · rw [if_neg h]
      obtain ⟨l₁, l₂, heq, hlt, hle⟩ := ih b
      cases l₁ with
      | nil =>
        rw [List.nil_append] at heq
        injection heq with h1 h2
        refine ⟨[], y :: ys, ?_, by simp, ?_⟩
        · rw [List.nil_append, ← h1]
        · intro x hx
          rcases List.mem_cons.mp hx with hxy | hx'
          · subst hxy
            rw [← h1]
            exact le_of_not_lt h
          · exact hle x (h2 ▸ hx')
      | cons a l₁' =>
        rw [List.cons_append] at heq
        injection heq with h1 h2
        subst h1
        refine ⟨b :: y :: l₁', l₂, ?_, ?_, hle⟩
        · rw [List.cons_append, List.cons_append, ← h2]
        · intro x hx
          have hblt : b.last_modified < (pyMaxByLastModified b ys).last_modified :=
            hlt b (List.mem_cons_self b l₁')
          rcases List.mem_cons.mp hx with hxb | hx'
          · subst hxb
            exact hblt
          · rcases List.mem_cons.mp hx' with hxy | hx''
            · subst hxy
              exact lt_of_le_of_lt (le_of_not_lt h) hblt
            · exact hlt x (List.mem_cons_of_mem b hx'')

theorem rule1_rule2_exclusive (avg : ℚ) (r : MeterRecord) :
    rule1Fires avg r = true → rule2Fires r = true → False := by
  intro h1 h2
  simp [rule1Fires] at h1
  simp [rule2Fires] at h2
  obtain ⟨ha, hd⟩ := h1
  rw [h2] at hd
  linarith

/-! ## Claim theorems -/

/-- C4: for every non-empty collection of snapshot references, the selector
returns a reference of the collection whose `last_modified` is maximal (the
handlers then use its key); for an empty collection it selects nothing and
both entry points answer with the not-found response. -/
theorem C4_snapshot_selector (l : List SnapRef) :
    (l = [] →
      selectSnapshot l = none ∧
      (∀ fetch pOk, AnomalyLambda.lambda_handler l fetch pOk =
        (⟨404, .rawBody "No billing files found in S3"⟩, false)) ∧
      (∀ m fetch, BillingLambda.monthMissing m = false →
        BillingLambda.lambda_handler m l fetch =
          ⟨404, .errorBody "No billing files found in S3"⟩)) ∧
    (l ≠ [] → ∃ r, selectSnapshot l = some r ∧ r ∈ l ∧
      ∀ x ∈ l, x.last_modified ≤ r.last_modified) := by
  constructor
  · rintro rfl
    refine ⟨rfl, fun fetch pOk => rfl, fun m fetch hm => ?_⟩
    simp [BillingLambda.lambda_handler, hm, selectSnapshot]
  · intro hne
    match l, hne with
    | b :: xs, _ =>
      exact ⟨pyMaxByLastModified b xs, rfl, pyMax_mem b xs, pyMax_le b xs⟩

theorem C4_witness :
    (selectSnapshot [] = none) ∧
    ∃ r, selectSnapshot [⟨"a", 1⟩, ⟨"b", 2⟩] = some r ∧
      r ∈ [(⟨"a", 1⟩ : SnapRef), ⟨"b", 2⟩] ∧
      ∀ x ∈ [(⟨"a", 1⟩ : SnapRef), ⟨"b", 2⟩], x.last_modified ≤ r.last_modified :=
  ⟨((C4_snapshot_selector []).1 rfl).1,
   (C4_snapshot_selector [⟨"a", 1⟩, ⟨"b", 2⟩]).2 (by simp)⟩

/-- C10: when several references share the maximal `last_modified`, the
selected one is the first maximal element in listing order: every reference
strictly before it in the listing has a strictly smaller timestamp and every
one after it has a smaller-or-equal timestamp.  (Python `max` keeps the first
item attaining the maximum.)  Determinism is inherent: the selection is a
function of the listing. -/
theorem C10_first_max_tie_break (l : List SnapRef) (r : SnapRef)
    (h : selectSnapshot l = some r) :
    ∃ l₁ l₂, l = l₁ ++ r :: l₂ ∧
      (∀ x ∈ l₁, x.last_modified < r.last_modified) ∧
      (∀ x ∈ l₂, x.last_modified ≤ r.last_modified) := by
  match l with
  | [] => simp [selectSnapshot] at h
  | b :: xs =>
    rw [selectSnapshot] at h
    injection h with h
    subst h
    exact pyMax_split b xs

/-- C5: rule thresholds are strict inequalities: a record whose `daily_sum`
equals exactly `1.5 * avg_daily` does not fire the high-consumption rule, and
a sub-metering value exactly equal to 10000 does not fire the spike rule (for
each of the three sub-metering columns). -/
theorem C5_strict_thresholds (avg : ℚ) (r : MeterRecord) :
    (r.dailySum = 3 / 2 * avg →
      rule1Fires avg r = false ∧
      Alert.highConsumption r.date r.dailySum avg ∉ rowAlerts avg r) ∧
    (r.sub1 = 10000 →
      rule3Fires r.sub1 = false ∧
      Alert.subMeterSpike r.date 0 r.sub1 ∉ rowAlerts avg r) ∧
    (r.sub2 = 10000 →
      rule3Fires r.sub2 = false ∧
      Alert.subMeterSpike r.date 1 r.sub2 ∉ rowAlerts avg r) ∧
    (r.sub3 = 10000 →
      rule3Fires r.sub3 = false ∧
      Alert.subMeterSpike r.date 2 r.sub3 ∉ rowAlerts avg r) := by
  refine ⟨fun h => ?_, fun h => ?_, fun h => ?_, fun h => ?_⟩
  · have h1 : rule1Fires avg r = false := by simp [rule1Fires, h]
    refine ⟨h1, ?_⟩
    simp [rowAlerts, h1]
  · have h1 : rule3Fires r.sub1 = false := by simp [rule3Fires, h]
    refine ⟨h1, ?_⟩
    simp [rowAlerts, h1]
  · have h1 : rule3Fires r.sub2 = false := by simp [rule3Fires, h]
    refine ⟨h1, ?_⟩
    simp [rowAlerts, h1]
  · have h1 : rule3Fires r.sub3 = false := by simp [rule3Fires, h]
    refine ⟨h1, ?_⟩
    simp [rowAlerts, h1]

/-- A concrete record sitting exactly on both thresholds:
`daily_sum = 3 = 1.5 * 2` and every sub-meter exactly 10000. -/
def borderRec : MeterRecord :=
  ⟨⟨5, 10, 2025⟩, 10000, 10000, 10000, 3, 0, 0, 0⟩

theorem C5_witness :
    (rule1Fires 2 borderRec = false ∧
      Alert.highConsumption borderRec.date borderRec.dailySum 2 ∉ rowAlerts 2 borderRec) ∧
    (rule3Fires borderRec.sub1 = false ∧
      Alert.subMeterSpike borderRec.date 0 borderRec.sub1 ∉ rowAlerts 2 borderRec) ∧
    (rule3Fires borderRec.sub2 = false ∧
      Alert.subMeterSpike borderRec.date 1 borderRec.sub2 ∉ rowAlerts 2 borderRec) ∧
    (rule3Fires borderRec.sub3 = false ∧
      Alert.subMeterSpike borderRec.date 2 borderRec.sub3 ∉ rowAlerts 2 borderRec) :=
  ⟨(C5_strict_thresholds 2 borderRec).1 (by norm_num [borderRec]),
   (C5_strict_thresholds 2 borderRec).2.1 (by norm_num [borderRec]),
   (C5_strict_thresholds 2 borderRec).2.2.1 (by norm_num [borderRec]),
   (C5_strict_thresholds 2 borderRec).2.2.2 (by norm_num [borderRec])⟩

/-- C2 counterexample: the high-consumption rule requires
`daily_sum > 1.5 * avg_daily` with `avg_daily > 0`, while the zero-consumption
rule requires `daily_sum = 0`; they can never fire on the same record, so no
record ever fires all three rules (and 5 alerts for one record is
unreachable). -/
theorem C2_counterexample :
    ¬ ∃ (avg : ℚ) (r : MeterRecord),
      rule1Fires avg r = true ∧ rule2Fires r = true ∧
      (rule3Fires r.sub1 = true ∨ rule3Fires r.sub2 = true ∨ rule3Fires r.sub3 = true) := by
  rintro ⟨avg, r, h1, h2, -⟩
  exact rule1_rule2_exclusive avg r h1 h2

/-- A record firing the zero-consumption rule and all three spike rules. -/
def fourAlertRec : MeterRecord :=
  ⟨⟨6, 10, 2025⟩, 20000, 20000, 20000, 0, 0, 0, 0⟩

/-- C2 (amended): the rules are evaluated independently — each alert is present
in a record's alert list iff its own predicate holds, no rule suppresses
another — but the high-consumption and zero-consumption rules are mutually
exclusive, so a single record produces 0 to 4 alerts (at most one of
high/zero, plus up to 3 spikes), and 4 is attained. -/
theorem C2_rules_independent (avg : ℚ) (r : MeterRecord) :
    (Alert.highConsumption r.date r.dailySum avg ∈ rowAlerts avg r ↔
      rule1Fires avg r = true) ∧
    (Alert.zeroConsumption r.date ∈ rowAlerts avg r ↔ rule2Fires r = true) ∧
    (Alert.subMeterSpike r.date 0 r.sub1 ∈ rowAlerts avg r ↔ rule3Fires r.sub1 = true) ∧
    (Alert.subMeterSpike r.date 1 r.sub2 ∈ rowAlerts avg r ↔ rule3Fires r.sub2 = true) ∧
    (Alert.subMeterSpike r.date 2 r.sub3 ∈ rowAlerts avg r ↔ rule3Fires r.sub3 = true) ∧
    (rowAlerts avg r).length ≤ 4 ∧
    (∃ ds : List MeterRecord, ∃ r' ∈ ds, (rowAlerts (avgDaily ds) r').length = 4) := by
  have excl := rule1_rule2_exclusive avg r
  refine ⟨?_, ?_, ?_, ?_, ?_, ?_, ?_⟩
  · rw [rowAlerts]
    split_ifs <;> simp_all
  · rw [rowAlerts]
    split_ifs <;> simp_all
  · rw [rowAlerts]
    split_ifs <;> simp_all
  · rw [rowAlerts]
    split_ifs <;> simp_all
  · rw [rowAlerts]
    split_ifs <;> simp_all
  · rw [rowAlerts]
    split_ifs <;> simp_all
  · refine ⟨[fourAlertRec], fourAlertRec, by simp, ?_⟩
    norm_num [rowAlerts, avgDaily, rule1Fires, rule2Fires, rule3Fires, fourAlertRec]

theorem C10_witness :
    selectSnapshot [⟨"b", 5⟩, ⟨"a", 5⟩] = some ⟨"b", 5⟩ ∧
    ∃ l₁ l₂, [(⟨"b", 5⟩ : SnapRef), ⟨"a", 5⟩] = l₁ ++ (⟨"b", 5⟩ : SnapRef) :: l₂ ∧
      (∀ x ∈ l₁, x.last_modified < (5 : Nat)) ∧
      (∀ x ∈ l₂, x.last_modified ≤ 5) :=
  ⟨by decide, C10_first_max_tie_break _ _ (by decide)⟩

/-! ## Shared concrete fixtures and helpers for the remaining claims -/

theorem isEmpty_false_of_ne_nil {α : Type} {l : List α} (h : l ≠ []) :
    l.isEmpty = false := by
  cases l
  · exact absurd rfl h
  · rfl

/-- Rows kept by `normalizeAnomaly` are exactly the rows with a parseable
date. -/
theorem normalizeAnomaly_length (csv : RawCSV) (ds : List MeterRecord)
    (h : normalizeAnomaly csv = .ok ds) :
    ds.length = (csv.rows.filter fun r => r.dateCell.isSome).length := by
  cases hd : csv.hasDateCol with
  | false => simp [normalizeAnomaly, hd] at h
  | true =>
    simp only [normalizeAnomaly, hd, Bool.not_true, Bool.false_eq_true, if_false,
      Except.ok.injEq] at h
    subst h
    induction csv.rows with
    | nil => rfl
    | cons r rs ih =>
      cases hr : r.dateCell <;>
        simp [List.filterMap_cons, List.filter_cons, hr, ih]

theorem validRows_length (csv : RawCSV) :
    (BillingLambda.validRows csv).length =
      (csv.rows.filter fun r => r.dateCell.isSome).length := by
  rw [BillingLambda.validRows]
  induction csv.rows with
  | nil => rfl
  | cons r rs ih =>
    cases hr : r.dateCell <;>
      simp [List.filterMap_cons, List.filter_cons, hr, ih]

/-- The anomaly handler on a snapshot that normalizes to the empty dataset:
success, zero counts, no publish call. -/
theorem anomaly_handler_empty (listing : List SnapRef)
    (fetch : String → Except String RawCSV) (publish : Except String Unit)
    (ref : SnapRef) (csv : RawCSV)
    (hsel : selectSnapshot listing = some ref)
    (hfetch : fetch ref.key = .ok csv)
    (hnorm : normalizeAnomaly csv = .ok []) :
    AnomalyLambda.lambda_handler listing fetch publish =
      (⟨200, .anomalySuccess ref.key 0 0⟩, false) := by
  simp [AnomalyLambda.lambda_handler, hsel, hfetch, hnorm, allAlerts]

/-- The anomaly handler when the scan finds at least one alert: the response
depends on the publish outcome. -/
theorem anomaly_handler_alerts (listing : List SnapRef)
    (fetch : String → Except String RawCSV) (publish : Except String Unit)
    (ref : SnapRef) (csv : RawCSV) (ds : List MeterRecord)
    (hsel : selectSnapshot listing = some ref)
    (hfetch : fetch ref.key = .ok csv)
    (hnorm : normalizeAnomaly csv = .ok ds)
    (hne : allAlerts ds ≠ []) :
    AnomalyLambda.lambda_handler listing fetch publish =
      match publish with
      | .ok _ => (⟨200, .anomalySuccess ref.key ds.length (allAlerts ds).length⟩, true)
      | .error e => (⟨500, .errorBody e⟩, true) := by
  have h1 : (allAlerts ds).isEmpty = false := isEmpty_false_of_ne_nil hne
  cases publish <;> simp [AnomalyLambda.lambda_handler, hsel, hfetch, hnorm, h1]

/-- A one-element S3 listing used in the concrete runs below. -/
def exListing : List SnapRef := [⟨"data/billing_agg_2025-10.csv", 10⟩]

/-- A CSV whose single row has the unparsable string "abc" in
`total_Sub_metering_1` and distinct numeric values elsewhere. -/
def strCellCSV : RawCSV :=
  ⟨true, true, true, true, true, true, true, true, true,
   [⟨some ⟨5, 10, 2025⟩, .str "abc", .num 2, .num 3, .num 5, .num 6, .num 7,
     .num 8, .num 4⟩]⟩

def strCellFetch : String → Except String RawCSV := fun _ => .ok strCellCSV

/-- C1 counterexample: a monthly query over a CSV whose
`total_Sub_metering_1` cell is the unparsable string "abc" returns that cell
unchanged — the monthly-query path does not replace it with 0, so the
coercion rule does not hold identically on both paths. -/
theorem C1_counterexample :
    BillingLambda.lambda_handler (some "2025-10") exListing strCellFetch =
      ⟨200, .records [[("Date", .str "05-10-2025"),
        ("total_Sub_metering_1", .str "abc"),
        ("total_Sub_metering_2", .num 2),
        ("total_Sub_metering_3", .num 3),
        ("avg_submetering_value", .num 4),
        ("total_daily_sum", .num 5),
        ("peak_charge", .num 6),
        ("offpeak_charge", .num 7),
        ("total_charge", .num 8)]]⟩ ∧
    Cell.str "abc" ≠ Cell.num 0 := by
  constructor
  · rfl
  · simp

/-- C1 (amended): on the anomaly path every cell of a schema-present numeric
column that fails numeric parsing is replaced by 0 and the row is retained
(rows are dropped only for unparsable dates); on the monthly-query path rows
are likewise retained, but only empty (`NaN`) cells are filled with 0 — a
string cell that fails numeric parsing is retained unchanged, so the
coercion-to-0 rule holds on the anomaly path only. -/
theorem C1_numeric_coercion :
    (∀ s, toNumericFill0 (.str s) = 0) ∧
    (toNumericFill0 .nan = 0) ∧
    (∀ s, fillna0 (.str s) = .str s) ∧
    (fillna0 .nan = .num 0) ∧
    (∀ csv ds, normalizeAnomaly csv = .ok ds →
      ds.length = (csv.rows.filter fun r => r.dateCell.isSome).length) ∧
    (∀ csv, (BillingLambda.validRows csv).length =
      (csv.rows.filter fun r => r.dateCell.isSome).length) :=
  ⟨fun _ => rfl, rfl, fun _ => rfl, rfl, normalizeAnomaly_length, validRows_length⟩

theorem C1_witness :
    toNumericFill0 (.str "abc") = 0 ∧
    fillna0 (.str "abc") = .str "abc" ∧
    ∃ ds, normalizeAnomaly strCellCSV = .ok ds ∧
      ds.length = (strCellCSV.rows.filter fun r => r.dateCell.isSome).length :=
  ⟨C1_numeric_coercion.1 "abc", C1_numeric_coercion.2.2.1 "abc",
   ⟨_, rfl, C1_numeric_coercion.2.2.2.2.1 strCellCSV _ rfl⟩⟩

/-- A CSV whose single row has a zero daily sum: exactly one alert. -/
def zeroDayCSV : RawCSV :=
  ⟨true, true, true, true, true, true, true, true, true,
   [⟨some ⟨5, 10, 2025⟩, .num 0, .num 0, .num 0, .num 0, .num 0, .num 0,
     .num 0, .num 0⟩]⟩

def zeroDayFetch : String → Except String RawCSV := fun _ => .ok zeroDayCSV

/-- The normalized dataset of `zeroDayCSV`. -/
def zeroDayRec : MeterRecord := ⟨⟨5, 10, 2025⟩, 0, 0, 0, 0, 0, 0, 0⟩

theorem zeroDay_norm : normalizeAnomaly zeroDayCSV = .ok [zeroDayRec] := rfl

theorem zeroDay_alerts : allAlerts [zeroDayRec] = [.zeroConsumption ⟨5, 10, 2025⟩] := by
  norm_num [allAlerts, avgDaily, rowAlerts, rule1Fires, rule2Fires, rule3Fires,
    zeroDayRec, List.flatMap]

/-- C3 counterexample: with one zero-consumption alert found, a successful
publish yields the 200 detection response, but a failing publish yields the
500 internal-error response — the dispatch failure does convert the response
into an error response, erasing the detection result. -/
theorem C3_counterexample :
    AnomalyLambda.lambda_handler exListing zeroDayFetch (.ok ()) =
      (⟨200, .anomalySuccess "data/billing_agg_2025-10.csv" 1 1⟩, true) ∧
    AnomalyLambda.lambda_handler exListing zeroDayFetch (.error "SNS publish failed") =
      (⟨500, .errorBody "SNS publish failed"⟩, true) := by
  have h1 := anomaly_handler_alerts exListing zeroDayFetch (.ok ())
    ⟨"data/billing_agg_2025-10.csv", 10⟩ zeroDayCSV [zeroDayRec] rfl rfl zeroDay_norm
    (by rw [zeroDay_alerts]; simp)
  have h2 := anomaly_handler_alerts exListing zeroDayFetch (.error "SNS publish failed")
    ⟨"data/billing_agg_2025-10.csv", 10⟩ zeroDayCSV [zeroDayRec] rfl rfl zeroDay_norm
    (by rw [zeroDay_alerts]; simp)
  rw [zeroDay_alerts] at h1 h2
  exact ⟨h1, h2⟩

/-- C3 (amended): detection and dispatch results are NOT reported
independently: when the scan finds alerts, the response is the 200 detection
summary only if `sns.publish` succeeds; if the publish call raises, the
exception reaches the catch-all handler and the caller receives the 500
internal-error response carrying the exception text — the successful
detection result is masked. -/
theorem C3_dispatch_failure_masks_detection (listing : List SnapRef)
    (fetch : String → Except String RawCSV) (ref : SnapRef) (csv : RawCSV)
    (ds : List MeterRecord) (e : String)
    (hsel : selectSnapshot listing = some ref)
    (hfetch : fetch ref.key = .ok csv)
    (hnorm : normalizeAnomaly csv = .ok ds)
    (hne : allAlerts ds ≠ []) :
    AnomalyLambda.lambda_handler listing fetch (.ok ()) =
      (⟨200, .anomalySuccess ref.key ds.length (allAlerts ds).length⟩, true) ∧
    AnomalyLambda.lambda_handler listing fetch (.error e) =
      (⟨500, .errorBody e⟩, true) :=
  ⟨anomaly_handler_alerts listing fetch (.ok ()) ref csv ds hsel hfetch hnorm hne,
   anomaly_handler_alerts listing fetch (.error e) ref csv ds hsel hfetch hnorm hne⟩

theorem C3_witness :
    AnomalyLambda.lambda_handler exListing zeroDayFetch (.ok ()) =
      (⟨200, .anomalySuccess "data/billing_agg_2025-10.csv"
        [zeroDayRec].length (allAlerts [zeroDayRec]).length⟩, true) ∧
    AnomalyLambda.lambda_handler exListing zeroDayFetch (.error "publish down") =
      (⟨500, .errorBody "publish down"⟩, true) :=
  C3_dispatch_failure_masks_detection exListing zeroDayFetch
    ⟨"data/billing_agg_2025-10.csv", 10⟩ zeroDayCSV [zeroDayRec] "publish down"
    rfl rfl zeroDay_norm (by rw [zeroDay_alerts]; simp)

/-- C6: on an empty normalized dataset the anomaly path defines `avg_daily`
as 0 (so the high-consumption rule can never fire, whatever the record), the
rule engine produces zero alerts, no dispatch call is made, and the response
is the 200 success reporting 0 records analyzed and 0 alerts found. -/
theorem C6_empty_dataset (listing : List SnapRef)
    (fetch : String → Except String RawCSV) (publish : Except String Unit)
    (ref : SnapRef) (csv : RawCSV)
    (hsel : selectSnapshot listing = some ref)
    (hfetch : fetch ref.key = .ok csv)
    (hnorm : normalizeAnomaly csv = .ok []) :
    avgDaily [] = 0 ∧
    (∀ r : MeterRecord, rule1Fires (avgDaily []) r = false) ∧
    allAlerts [] = [] ∧
    AnomalyLambda.lambda_handler listing fetch publish =
      (⟨200, .anomalySuccess ref.key 0 0⟩, false) :=
  ⟨rfl, fun r => by simp [rule1Fires, avgDaily], rfl,
   anomaly_handler_empty listing fetch publish ref csv hsel hfetch hnorm⟩

/-- A CSV with the full schema and no rows at all. -/
def emptyCSV : RawCSV :=
  ⟨true, true, true, true, true, true, true, true, true, []⟩

def emptyFetch : String → Except String RawCSV := fun _ => .ok emptyCSV

theorem C6_witness :
    avgDaily [] = 0 ∧
    (∀ r : MeterRecord, rule1Fires (avgDaily []) r = false) ∧
    allAlerts [] = [] ∧
    AnomalyLambda.lambda_handler exListing emptyFetch (.ok ()) =
      (⟨200, .anomalySuccess "data/billing_agg_2025-10.csv" 0 0⟩, false) :=
  C6_empty_dataset exListing emptyFetch (.ok ())
    ⟨"data/billing_agg_2025-10.csv", 10⟩ emptyCSV rfl rfl rfl

/-- C7: when every row's date fails to parse, the anomaly path accepts the
resulting empty dataset and returns the 0/0 success response, while the
monthly-query path answers 500 "No valid dates found in CSV" for every
non-empty month parameter — before any month filtering takes place. -/
theorem C7_empty_after_date_filter (listing : List SnapRef)
    (fetch : String → Except String RawCSV) (publish : Except String Unit)
    (ref : SnapRef) (csv : RawCSV)
    (hsel : selectSnapshot listing = some ref)
    (hfetch : fetch ref.key = .ok csv)
    (hdate : csv.hasDateCol = true)
    (hrows : ∀ r ∈ csv.rows, r.dateCell = none) :
    AnomalyLambda.lambda_handler listing fetch publish =
      (⟨200, .anomalySuccess ref.key 0 0⟩, false) ∧
    (∀ m : String, m.isEmpty = false →
      BillingLambda.lambda_handler (some m) listing fetch =
        ⟨500, .errorBody "No valid dates found in CSV"⟩) := by
  have hnorm : normalizeAnomaly csv = .ok [] := by
    simp only [normalizeAnomaly, hdate, Bool.not_true, Bool.false_eq_true, if_false,
      Except.ok.injEq]
    rw [List.filterMap_eq_nil_iff]
    intro r hr
    simp [hrows r hr]
  have hvr : BillingLambda.validRows csv = [] := by
    rw [BillingLambda.validRows, List.filterMap_eq_nil_iff]
    intro r hr
    simp [hrows r hr]
  constructor
  · exact anomaly_handler_empty listing fetch publish ref csv hsel hfetch hnorm
  · intro m hm
    simp [BillingLambda.lambda_handler, BillingLambda.monthMissing, hm, hsel, hfetch,
      hdate, hvr]

/-- A CSV with one row whose date fails to parse. -/
def noDatesCSV : RawCSV :=
  ⟨true, true, true, true, true, true, true, true, true,
   [⟨none, .num 1, .num 1, .num 1, .num 1, .num 1, .num 1, .num 1, .num 1⟩]⟩

def noDatesFetch : String → Except String RawCSV := fun _ => .ok noDatesCSV

theorem C7_witness :
    AnomalyLambda.lambda_handler exListing noDatesFetch (.ok ()) =
      (⟨200, .anomalySuccess "data/billing_agg_2025-10.csv" 0 0⟩, false) ∧
    BillingLambda.lambda_handler (some "2025-10") exListing noDatesFetch =
      ⟨500, .errorBody "No valid dates found in CSV"⟩ := by
  obtain ⟨h1, h2⟩ := C7_empty_after_date_filter exListing noDatesFetch (.ok ())
    ⟨"data/billing_agg_2025-10.csv", 10⟩ noDatesCSV rfl rfl rfl (by decide)
  exact ⟨h1, h2 "2025-10" rfl⟩

/-- `true` when the body has the structured `{error: ...}` shape
(`json.dumps({"error": ...})`, optionally with `details`). -/
def isStructuredError : Body → Bool
  | .errorBody _ => true
  | .errorBodyDetails _ _ => true
  | _ => false

/-- A CSV whose `Date` column is missing entirely. -/
def noDateColCSV : RawCSV :=
  ⟨false, true, true, true, true, true, true, true, true,
   [⟨some ⟨5, 10, 2025⟩, .num 1, .num 1, .num 1, .num 1, .num 1, .num 1,
     .num 1, .num 1⟩]⟩

def noDateColFetch : String → Except String RawCSV := fun _ => .ok noDateColCSV

/-- A fetch whose `get_object` call raises. -/
def failingFetch : String → Except String RawCSV := fun _ => .error "S3 get_object failed"

/-- C8 counterexample: on both entry points the schema-error response
(missing `Date` column) and the internal-error response (collaborator
exception) carry the same status code 500, so they are not distinguishable by
status code. -/
theorem C8_counterexample :
    (BillingLambda.lambda_handler (some "2025-10") exListing noDateColFetch).statusCode = 500 ∧
    (BillingLambda.lambda_handler (some "2025-10") exListing failingFetch).statusCode = 500 ∧
    (AnomalyLambda.lambda_handler exListing noDateColFetch (.ok ())).1.statusCode = 500 ∧
    (AnomalyLambda.lambda_handler exListing failingFetch (.ok ())).1.statusCode = 500 := by
  refine ⟨rfl, rfl, rfl, rfl⟩

/-- C8 (amended): each error kind has a stable status code on both entry
points — bad-request → 400, not-found → 404, schema-error → 500,
internal-error → 500 — but schema-error and internal-error share the code 500
and are distinguishable only by the body; every billing-path error carries the
structured `{error: string}` body (with `details` on internal errors) and the
anomaly-path 500 errors do as well, while the anomaly-path not-found response
body is a bare string rather than a structured `{error}` object. -/
theorem C8_status_taxonomy :
    (∀ l f, BillingLambda.lambda_handler none l f =
      ⟨400, .errorBody "Month parameter is required, e.g., ?month=2025-10"⟩) ∧
    (∀ m f, BillingLambda.monthMissing m = false →
      BillingLambda.lambda_handler m [] f =
        ⟨404, .errorBody "No billing files found in S3"⟩) ∧
    (∀ f p, AnomalyLambda.lambda_handler [] f p =
      (⟨404, .rawBody "No billing files found in S3"⟩, false)) ∧
    (∀ m l f ref csv, BillingLambda.monthMissing m = false →
      selectSnapshot l = some ref → f ref.key = .ok csv → csv.hasDateCol = false →
      BillingLambda.lambda_handler m l f = ⟨500, .errorBody "CSV missing Date column"⟩) ∧
    (∀ l f p ref csv, selectSnapshot l = some ref → f ref.key = .ok csv →
      csv.hasDateCol = false →
      AnomalyLambda.lambda_handler l f p =
        (⟨500, .errorBody "CSV file is missing the required Date column."⟩, false)) ∧
    (∀ m l f ref e, BillingLambda.monthMissing m = false →
      selectSnapshot l = some ref → f ref.key = .error e →
      BillingLambda.lambda_handler m l f =
        ⟨500, .errorBodyDetails "Internal server error" e⟩) ∧
    (∀ l f p ref e, selectSnapshot l = some ref → f ref.key = .error e →
      AnomalyLambda.lambda_handler l f p = (⟨500, .errorBody e⟩, false)) ∧
    (isStructuredError (.errorBody "x") = true ∧
      isStructuredError (.errorBodyDetails "x" "y") = true ∧
      isStructuredError (.rawBody "No billing files found in S3") = false) := by
  refine ⟨?_, ?_, ?_, ?_, ?_, ?_, ?_, by simp [isStructuredError]⟩
  · intro l f
    rfl
  · intro m f hm
    simp [BillingLambda.lambda_handler, hm, selectSnapshot]
  · intro f p
    rfl
  · intro m l f ref csv hm hsel hf hd
    simp [BillingLambda.lambda_handler, hm, hsel, hf, hd]
  · intro l f p ref csv hsel hf hd
    simp [AnomalyLambda.lambda_handler, hsel, hf, normalizeAnomaly, hd]
  · intro m l f ref e hm hsel hf
    simp [BillingLambda.lambda_handler, hm, hsel, hf]
  · intro l f p ref e hsel hf
    simp [AnomalyLambda.lambda_handler, hsel, hf]

theorem C8_witness :
    BillingLambda.lambda_handler none exListing strCellFetch =
      ⟨400, .errorBody "Month parameter is required, e.g., ?month=2025-10"⟩ ∧
    BillingLambda.lambda_handler (some "2025-10") [] strCellFetch =
      ⟨404, .errorBody "No billing files found in S3"⟩ ∧
    AnomalyLambda.lambda_handler [] strCellFetch (.ok ()) =
      (⟨404, .rawBody "No billing files found in S3"⟩, false) ∧
    BillingLambda.lambda_handler (some "2025-10") exListing noDateColFetch =
      ⟨500, .errorBody "CSV missing Date column"⟩ ∧
    AnomalyLambda.lambda_handler exListing noDateColFetch (.ok ()) =
      (⟨500, .errorBody "CSV file is missing the required Date column."⟩, false) ∧
    BillingLambda.lambda_handler (some "2025-10") exListing failingFetch =
      ⟨500, .errorBodyDetails "Internal server error" "S3 get_object failed"⟩ ∧
    AnomalyLambda.lambda_handler exListing failingFetch (.ok ()) =
      (⟨500, .errorBody "S3 get_object failed"⟩, false) :=
  ⟨C8_status_taxonomy.1 exListing strCellFetch,
   C8_status_taxonomy.2.1 (some "2025-10") strCellFetch rfl,
   C8_status_taxonomy.2.2.1 strCellFetch (.ok ()),
   C8_status_taxonomy.2.2.2.1 (some "2025-10") exListing noDateColFetch _ noDateColCSV
     rfl rfl rfl rfl,
   C8_status_taxonomy.2.2.2.2.1 exListing noDateColFetch (.ok ()) _ noDateColCSV
     rfl rfl rfl,
   C8_status_taxonomy.2.2.2.2.2.1 (some "2025-10") exListing failingFetch
     ⟨"data/billing_agg_2025-10.csv", 10⟩ "S3 get_object failed" rfl rfl rfl,
   C8_status_taxonomy.2.2.2.2.2.2.1 exListing failingFetch (.ok ())
     ⟨"data/billing_agg_2025-10.csv", 10⟩ "S3 get_object failed" rfl rfl⟩

/-- The column names of each serialized record of a `records` body. -/
def recordColumnNames : Body → List (List String)
  | .records rows => rows.map fun row => row.map Prod.fst
  | _ => []

/-- C9 counterexample: in the serialized monthly records the column order is
Date, sub_metering_1/2/3, then `avg_submetering_value` FOURTH among the
numeric fields (before `total_daily_sum`), not last as the claim states. -/
theorem C9_counterexample :
    recordColumnNames (BillingLambda.lambda_handler (some "2025-10") exListing
        strCellFetch).body =
      [["Date", "total_Sub_metering_1", "total_Sub_metering_2",
        "total_Sub_metering_3", "avg_submetering_value", "total_daily_sum",
        "peak_charge", "offpeak_charge", "total_charge"]] ∧
    [["Date", "total_Sub_metering_1", "total_Sub_metering_2",
      "total_Sub_metering_3", "avg_submetering_value", "total_daily_sum",
      "peak_charge", "offpeak_charge", "total_charge"]] ≠
      [["Date", "total_Sub_metering_1", "total_Sub_metering_2",
        "total_Sub_metering_3", "total_daily_sum", "peak_charge",
        "offpeak_charge", "total_charge", "avg_submetering_value"]] := by
  refine ⟨rfl, by decide⟩

/-- C9 (amended): for every monthly query matching at least one record, the
response body serializes exactly the records whose date falls in the requested
calendar month (in dataset order), each with its date reformatted to
day-month-year, and with the fixed column order of `billing_cols`: date first,
then sub_metering_1/2/3, then avg_submetering_value, then daily_sum,
peak_charge, offpeak_charge, total_charge — i.e. `avg_submetering_value`
comes fourth among the numeric fields, not last. -/
theorem C9_month_query_serialization (m : String) (l : List SnapRef)
    (f : String → Except String RawCSV) (ref : SnapRef) (csv : RawCSV)
    (hm : m.isEmpty = false)
    (hsel : selectSnapshot l = some ref)
    (hf : f ref.key = .ok csv)
    (hdate : csv.hasDateCol = true)
    (hmonth : (BillingLambda.validRows csv).filter (fun p => formatYM p.1 == m) ≠ []) :
    BillingLambda.lambda_handler (some m) l f =
      ⟨200, .records
        (((BillingLambda.validRows csv).filter fun p => formatYM p.1 == m).map
          fun p =>
            [("Date", Cell.str (formatDMY p.1)),
             ("total_Sub_metering_1", BillingLambda.queryCell csv.hasSub1 p.2.sub1),
             ("total_Sub_metering_2", BillingLambda.queryCell csv.hasSub2 p.2.sub2),
             ("total_Sub_metering_3", BillingLambda.queryCell csv.hasSub3 p.2.sub3),
             ("avg_submetering_value", BillingLambda.queryCell csv.hasAvgSub p.2.avgSub),
             ("total_daily_sum", BillingLambda.queryCell csv.hasDailySum p.2.dailySum),
             ("peak_charge", BillingLambda.queryCell csv.hasPeak p.2.peak),
             ("offpeak_charge", BillingLambda.queryCell csv.hasOffpeak p.2.offpeak),
             ("total_charge", BillingLambda.queryCell csv.hasTotal p.2.total)])⟩ := by
  have hvalid : BillingLambda.validRows csv ≠ [] := by
    intro hnil
    rw [hnil] at hmonth
    exact hmonth rfl
  have h1 : (BillingLambda.validRows csv).isEmpty = false := isEmpty_false_of_ne_nil hvalid
  have h2 : ((BillingLambda.validRows csv).filter fun p => formatYM p.1 == m).isEmpty
      = false := isEmpty_false_of_ne_nil hmonth
  simp [BillingLambda.lambda_handler, BillingLambda.monthMissing, hm, hsel, hf, hdate,
    h1, h2, BillingLambda.serializeRow]

theorem C9_witness :
    BillingLambda.lambda_handler (some "2025-10") exListing strCellFetch =
      ⟨200, .records
        (((BillingLambda.validRows strCellCSV).filter
            fun p => formatYM p.1 == "2025-10").map
          fun p =>
            [("Date", Cell.str (formatDMY p.1)),
             ("total_Sub_metering_1",
               BillingLambda.queryCell strCellCSV.hasSub1 p.2.sub1),
             ("total_Sub_metering_2",
               BillingLambda.queryCell strCellCSV.hasSub2 p.2.sub2),
             ("total_Sub_metering_3",
               BillingLambda.queryCell strCellCSV.hasSub3 p.2.sub3),
             ("avg_submetering_value",
               BillingLambda.queryCell strCellCSV.hasAvgSub p.2.avgSub),
             ("total_daily_sum",
               BillingLambda.queryCell strCellCSV.hasDailySum p.2.dailySum),
             ("peak_charge", BillingLambda.queryCell strCellCSV.hasPeak p.2.peak),
             ("offpeak_charge",
               BillingLambda.queryCell strCellCSV.hasOffpeak p.2.offpeak),
             ("total_charge", BillingLambda.queryCell strCellCSV.hasTotal p.2.total)])⟩ :=
  C9_month_query_serialization "2025-10" exListing strCellFetch
    ⟨"data/billing_agg_2025-10.csv", 10⟩ strCellCSV rfl rfl rfl rfl (by decide)
